import Mathlib

/-!
Verification development for the Student Assistant app (`src/app.py`).

The app is a single Streamlit script.  We give a shallow embedding:

* the per-session state (`st.session_state`) becomes `SessionState`;
* the remote model service becomes an oracle `String → Option Part → String → RemoteResult`
  (prompt, optional attachment, model identifier ↦ response text or a raised exception);
* the gateway wrapper `generate` becomes a pure function recording the call it made
  (with a flag saying whether an outbound remote call was actually attempted);
* one top-to-bottom execution of the script, triggered by a user interaction,
  becomes `runApp`: it takes the current session state and the interaction's
  events (uploaded file in the widget, button click, chat input) and returns
  the new session state together with the list of gateway calls issued.
  `st.rerun()` ends the run, so branches ending in `st.rerun()` return early.
-/

namespace StudentAssistant

/-- Workflow status of a session: `"idle"`, `"processing"` or `"done"` in the source. -/
inductive WorkflowStatus where
  | idle
  | processing
  | done
deriving DecidableEq, Repr

/-- A file in the upload widget: name, raw bytes and declared MIME type
(`uploaded_file.name`, `uploaded_file.getvalue()`, `uploaded_file.type`). -/
structure FileUpload where
  name : String
  bytes : List Nat
  mime : String
deriving DecidableEq, Repr

/-- `types.Part.from_bytes(data=..., mime_type=...)`: the opaque attachment handle. -/
structure Part where
  data : List Nat
  mime_type : String
deriving DecidableEq, Repr

/-- A chat turn `(role, text)` as stored in `st.session_state.quiz_history`. -/
abbrev ChatTurn := String × String

/-- The per-session state, mirroring the keys initialised at the top of the script. -/
structure SessionState where
  uploaded_file_ref : Option Part
  current_file_name : Option String
  workflow_status : WorkflowStatus
  concept_map : Option String
  flashcards_csv : Option String
  quiz_history : List ChatTurn
deriving DecidableEq, Repr

/-- The session state right after initialisation (all keys absent, so set to defaults). -/
def initialState : SessionState :=
  { uploaded_file_ref := none
    current_file_name := none
    workflow_status := .idle
    concept_map := none
    flashcards_csv := none
    quiz_history := [] }

/-- Outcome of one remote `client.models.generate_content` call: either the
response text or an exception carrying a message. -/
inductive RemoteResult where
  | ok (text : String)
  | exn (msg : String)
deriving DecidableEq, Repr

/-- The remote model service, as an oracle from (prompt, attachment, model) to outcome. -/
abbrev Oracle := String → Option Part → String → RemoteResult

/-- Record of one invocation of the gateway function `generate`; `outbound` says
whether the remote call was actually attempted (it is not when `client` is absent). -/
structure GwCall where
  prompt : String
  content_part : Option Part
  model : String
  outbound : Bool
deriving DecidableEq, Repr

/-- Default model identifier in `generate`. -/
def default_model : String := "gemini-2.0-flash"

/-- Response text of one invocation of the gateway function `generate`: if
`client` is absent the body is `if not client: return "Error: No API Key"`,
before any remote call; otherwise the remote service is consulted and any
raised exception `e` is converted to the string `f"Error: {e}"`. -/
def gwText (client : Option String) (oracle : Oracle)
    (prompt : String) (content_part : Option Part) (model : String) : String :=
  match client with
  | none => "Error: No API Key"
  | some _ =>
    match oracle prompt content_part model with
    | .ok t => t
    | .exn e => "Error: " ++ e

/-- Instrumentation record of one invocation of `generate`: the arguments it
received, and whether an outbound remote call was attempted — it is exactly
when `client` is present, since `if not client` returns before the `try`. -/
def gwRecord (client : Option String) (prompt : String) (content_part : Option Part)
    (model : String) : GwCall :=
  ⟨prompt, content_part, model, client.isSome⟩

/-- The gateway function `generate(prompt, content_part=None, model="gemini-2.0-flash")`,
returning its response text together with the record of the call it made. -/
def generate (client : Option String) (oracle : Oracle)
    (prompt : String) (content_part : Option Part) (model : String) :
    String × GwCall :=
  (gwText client oracle prompt content_part model,
   gwRecord client prompt content_part model)

/-- API key handling at the top of the script.  `secretKey` is
`st.secrets["GEMINI_API_KEY"]` when present; `userKey` is the sidebar text input
(empty string when the user typed nothing).  Returns the constructed client
(the key it was given) and whether the `"API Key required."` warning is shown. -/
def apiKeyHandling (secretKey : Option String) (userKey : String) :
    Option String × Bool :=
  match secretKey with
  | some k => (some k, false)
  | none =>
    if userKey ≠ "" then (some userKey, false) else (none, true)

/-- `st.file_uploader(..., type=[...])`: the accepted file extensions, verbatim. -/
def accepted_types : List String :=
  ["pdf", "txt", "png", "jpg", "mp3", "wav", "mp4"]

/-- Whether the upload widget accepts a file of the given extension. -/
def fileTypeAccepted (ext : String) : Bool :=
  accepted_types.contains ext

/-- The concept-map prompt (step 1 of the processing workflow), verbatim. -/
def summary_prompt : String :=
  "\n            Analyze the attached material deeply.\n            Create a \x27Concept Map\x27 Summary:\n            1. **Main Topic**: What is this primarily about?\n            2. **Core Concepts**: List the top 5-20 most important terms with definitions.\n            3. **The \x27Aha!\x27 Moment**: The most complex idea explained simply.\n            "

/-- The flashcard prompt (step 2 of the processing workflow), verbatim. -/
def flashcard_prompt : String :=
  "\n            Create a CSV formatted list of flashcards from this content.\n            The flashcards should be useful for studying the main course content covered and not any unrelevant information.\n            Format: \"Front\",\"Back\"\n            Generate 20 cards. No markdown code blocks and no escaping characters, just raw CSV.\n            "

/-- The quiz-initialisation prompt (step 3 of the processing workflow), verbatim. -/
def q1_prompt : String :=
  "\n            You are a rigorous but fair tutor providing a practice quiz to a student. \n            Ask me the first distinct question based on the uploaded file. Do not give the answer.\n            "

/-- Python `sep.join(strings)`. -/
def strJoin (sep : String) : List String → String
  | [] => ""
  | [x] => x
  | x :: y :: rest => x ++ sep ++ strJoin sep (y :: rest)

/-- One formatted transcript line `f"{role}: {text}"`. -/
def turnLine (p : ChatTurn) : String :=
  p.1 ++ ": " ++ p.2

/-- `history_text = "\n".join([f"{role}: {text}" for role, text in quiz_history])`. -/
def history_text (h : List ChatTurn) : String :=
  strJoin "\n" (h.map turnLine)

/-- The grading prompt f-string, with `history_text` interpolated. -/
def grading_prompt (historyText : String) : String :=
  "\n                    Context: The user is answering a quiz based on the uploaded file.\n                    History: " ++ historyText ++ "\n                    \n                    Task:\n                    1. Grade the user\x27s last answer based strictly on the file.\n                    2. If wrong, explain why briefly.\n                    3. Ask the NEXT distinct question.\n                    "

/-- `types.Part.from_bytes` may raise; `failure` carries the exception message when
the environment makes it fail, otherwise the `Part` is built from bytes and MIME type. -/
def part_from_bytes (failure : Option String) (f : FileUpload) : Except String Part :=
  match failure with
  | some e => .error e
  | none => .ok ⟨f.bytes, f.mime⟩

/-- The events of one user interaction: the value of the upload widget, whether
`types.Part.from_bytes` raises during this run, whether the launch button reads
as clicked, and the chat input (if the user submitted a message). -/
structure Event where
  uploaded_file : Option FileUpload
  upload_failure : Option String
  launch_clicked : Bool
  chat_input : Option String

/-- The part of the script guarded by `if st.session_state.uploaded_file_ref:`
(launch button / processing workflow / dashboard and chat). Returns the new
session state and the gateway calls issued, in order. -/
def mainBranch (client : Option String) (oracle : Oracle)
    (s : SessionState) (e : Event) : SessionState × List GwCall :=
  match s.uploaded_file_ref with
  | none => (s, [])
  | some part =>
    match s.workflow_status with
    | .idle =>
      if e.launch_clicked then
        ({ s with workflow_status := .processing }, [])
      else (s, [])
    | .processing =>
      let (cm, c1) := generate client oracle summary_prompt (some part) default_model
      let (fc, c2) := generate client oracle flashcard_prompt (some part) default_model
      let (q1, c3) := generate client oracle q1_prompt (some part) default_model
      ({ s with concept_map := some cm
                flashcards_csv := some fc
                quiz_history := [("assistant", q1)]
                workflow_status := .done },
       [c1, c2, c3])
    | .done =>
      match e.chat_input with
      | none => (s, [])
      | some user_answer =>
        let h1 := s.quiz_history ++ [("user", user_answer)]
        let prompt := grading_prompt (history_text h1)
        let (response, c) := generate client oracle prompt (some part) default_model
        ({ s with quiz_history := h1 ++ [("assistant", response)] }, [c])

/-- One top-to-bottom run of the script for a single interaction.  Mirrors the
source order: new-upload handling (reset + `Part.from_bytes` + `st.rerun`),
file-removal handling (reset + `st.rerun`), then the `uploaded_file_ref` branch. -/
def runApp (client : Option String) (oracle : Oracle)
    (s : SessionState) (e : Event) : SessionState × List GwCall :=
  match e.uploaded_file with
  | some f =>
    if s.current_file_name ≠ some f.name then
      let s1 := { s with uploaded_file_ref := none
                         workflow_status := .idle
                         concept_map := none
                         flashcards_csv := none
                         quiz_history := [] }
      match part_from_bytes e.upload_failure f with
      | .ok part =>
        ({ s1 with uploaded_file_ref := some part
                   current_file_name := some f.name }, [])
      | .error _ => mainBranch client oracle s1 e
    else
      mainBranch client oracle s e
  | none =>
    match s.uploaded_file_ref with
    | some _ =>
      ({ s with uploaded_file_ref := none
                current_file_name := none
                workflow_status := .idle
                concept_map := none
                flashcards_csv := none
                quiz_history := [] }, [])
    | none => mainBranch client oracle s e

/-- What the dashboard (done state) renders, read straight from the session state. -/
def renderedDashboard (s : SessionState) :
    Option String × Option String × List ChatTurn :=
  (s.concept_map, s.flashcards_csv, s.quiz_history)

/-- Session states reachable from the initial state by user interactions. -/
inductive Reachable : SessionState → Prop where
  | init : Reachable initialState
  | step {s : SessionState} (client : Option String) (oracle : Oracle) (e : Event) :
      Reachable s → Reachable (runApp client oracle s e).1

/-! Concrete fixtures used by witnesses and counterexamples. -/

/-- A sample attachment handle. -/
def demoPart : Part := ⟨[72, 105], "text/plain"⟩

/-- A sample file in the upload widget, matching `demoPart`. -/
def demoFile : FileUpload := ⟨"notes.txt", [72, 105], "text/plain"⟩

/-- A sample session sitting in the `idle` state with `demoFile` uploaded. -/
def idleDemoState : SessionState :=
  { uploaded_file_ref := some demoPart
    current_file_name := some "notes.txt"
    workflow_status := .idle
    concept_map := none
    flashcards_csv := none
    quiz_history := [] }

/-- A sample session in the `done` state holding derived data for `demoFile`. -/
def staleDemoState : SessionState :=
  { uploaded_file_ref := some demoPart
    current_file_name := some "notes.txt"
    workflow_status := .done
    concept_map := some "old concept map"
    flashcards_csv := some "old cards"
    quiz_history := [("assistant", "old question")] }

/-- A different artifact (different bytes and MIME type) that carries the same
filename as `demoFile`. -/
def sameNameFile : FileUpload := ⟨"notes.txt", [1, 2, 3], "application/pdf"⟩

/-- An oracle that always answers with the same text. -/
def okOracle : Oracle := fun _ _ _ => .ok "model output"

/-- An oracle that always raises. -/
def exnOracle : Oracle := fun _ _ _ => .exn "boom"

/-! Theorems for the claims. -/

/-- C3: when the credential is absent — no key in the secret store and none
entered in the sidebar — no client is constructed, the `"API Key required."`
warning is shown, and every invocation of `generate` returns the string
`"Error: No API Key"` with no outbound remote call attempted. -/
theorem absent_credential_short_circuits
    (oracle : Oracle) (prompt : String) (content_part : Option Part) (model : String) :
    (apiKeyHandling none "").1 = none ∧
    (apiKeyHandling none "").2 = true ∧
    generate (apiKeyHandling none "").1 oracle prompt content_part model
      = ("Error: No API Key", ⟨prompt, content_part, model, false⟩) :=
  ⟨rfl, rfl, rfl⟩

/-- C4: whenever the remote call raises an exception with message `msg`, the
gateway returns exactly the string `"Error: " ++ msg`; being a total function,
it propagates nothing to its caller. -/
theorem gateway_exception_becomes_error_string
    (key : String) (oracle : Oracle) (prompt : String) (content_part : Option Part)
    (model msg : String)
    (hexn : oracle prompt content_part model = .exn msg) :
    (generate (some key) oracle prompt content_part model).1 = "Error: " ++ msg := by
  simp [generate, gwText, hexn]

/-- Witness for C4 at a concrete exception. -/
theorem gateway_exception_becomes_error_string_witness :
    (generate (some "k") exnOracle "p" none default_model).1 = "Error: " ++ "boom" :=
  gateway_exception_becomes_error_string "k" exnOracle "p" none default_model "boom" rfl

/-- C8 counterexample: the upload widget's type list does not contain `"jpeg"`,
so a `.jpeg` upload is not accepted even though the claim includes it. -/
theorem jpeg_not_accepted : fileTypeAccepted "jpeg" = false := by decide

/-- C8 (amended): the upload widget accepts exactly the extensions
pdf, txt, png, jpg, mp3, wav and mp4 — `jpeg` is not among them. -/
theorem fileTypeAccepted_iff (ext : String) :
    fileTypeAccepted ext = true ↔
      ext = "pdf" ∨ ext = "txt" ∨ ext = "png" ∨ ext = "jpg" ∨
      ext = "mp3" ∨ ext = "wav" ∨ ext = "mp4" := by
  simp [fileTypeAccepted, accepted_types]

/-- C7: re-rendering in the `done` state with no new chat input issues zero
gateway calls and leaves the session state unchanged — the dashboard is read
from the cached session fields. -/
theorem done_rerender_issues_no_calls
    (client : Option String) (oracle : Oracle) (s : SessionState)
    (f : FileUpload) (failure : Option String) (b : Bool)
    (hdone : s.workflow_status = .done)
    (hname : s.current_file_name = some f.name) :
    runApp client oracle s ⟨some f, failure, b, none⟩ = (s, []) := by
  cases hr : s.uploaded_file_ref with
  | none => simp [runApp, hname, mainBranch, hr]
  | some part => simp [runApp, hname, mainBranch, hr, hdone]

/-- Witness for C7 on a concrete `done` session. -/
theorem done_rerender_issues_no_calls_witness :
    runApp none okOracle staleDemoState ⟨some demoFile, none, false, none⟩
      = (staleDemoState, []) :=
  done_rerender_issues_no_calls none okOracle staleDemoState demoFile none false rfl rfl

/-- Helper: in the `processing` state the script issues the three workflow
calls in order and moves to `done`, storing each result. -/
theorem mainBranch_processing
    (client : Option String) (oracle : Oracle) (s : SessionState) (e : Event)
    (part : Part)
    (href : s.uploaded_file_ref = some part)
    (hproc : s.workflow_status = .processing) :
    mainBranch client oracle s e
      = ({ s with concept_map :=
                    some (gwText client oracle summary_prompt (some part) default_model)
                  flashcards_csv :=
                    some (gwText client oracle flashcard_prompt (some part) default_model)
                  quiz_history :=
                    [("assistant", gwText client oracle q1_prompt (some part) default_model)]
                  workflow_status := .done },
         [gwRecord client summary_prompt (some part) default_model,
          gwRecord client flashcard_prompt (some part) default_model,
          gwRecord client q1_prompt (some part) default_model]) := by
  simp [mainBranch, href, hproc, generate]

/-- Helper: `runApp` reduces to `mainBranch` when the upload widget holds the
file already recorded as current. -/
theorem runApp_same_name
    (client : Option String) (oracle : Oracle) (s : SessionState)
    (f : FileUpload) (failure : Option String) (b : Bool) (ci : Option String)
    (hname : s.current_file_name = some f.name) :
    runApp client oracle s ⟨some f, failure, b, ci⟩
      = mainBranch client oracle s ⟨some f, failure, b, ci⟩ := by
  simp [runApp, hname]

/-- C1: from `idle` with an artifact attached, clicking the launch button moves
the workflow to `processing` with no gateway call; the subsequent `processing`
run issues exactly the three workflow calls (concept map, flashcards, first quiz
question) in that order and moves to `done` whatever the oracle answers; and if
the first call raises with message `msg`, the stored concept map is the error
string `"Error: " ++ msg` while the state still reaches `done`. -/
theorem launch_then_three_calls_then_done
    (client : Option String) (oracle : Oracle) (s : SessionState)
    (part : Part) (f : FileUpload)
    (hidle : s.workflow_status = .idle)
    (href : s.uploaded_file_ref = some part)
    (hname : s.current_file_name = some f.name) :
    runApp client oracle s ⟨some f, none, true, none⟩
      = ({ s with workflow_status := .processing }, []) ∧
    (runApp client oracle { s with workflow_status := .processing }
        ⟨some f, none, false, none⟩).1.workflow_status = .done ∧
    (runApp client oracle { s with workflow_status := .processing }
        ⟨some f, none, false, none⟩).2
      = [gwRecord client summary_prompt (some part) default_model,
         gwRecord client flashcard_prompt (some part) default_model,
         gwRecord client q1_prompt (some part) default_model] ∧
    (∀ key msg, client = some key →
      oracle summary_prompt (some part) default_model = .exn msg →
      (runApp client oracle { s with workflow_status := .processing }
          ⟨some f, none, false, none⟩).1.concept_map = some ("Error: " ++ msg)) := by
  have h1 : runApp client oracle s ⟨some f, none, true, none⟩
      = ({ s with workflow_status := .processing }, []) := by
    simp [runApp, hname, mainBranch, href, hidle]
  have h2 := mainBranch_processing client oracle { s with workflow_status := .processing }
    ⟨some f, none, false, none⟩ part (by simpa using href) rfl
  have h3 : runApp client oracle { s with workflow_status := .processing }
      ⟨some f, none, false, none⟩
      = mainBranch client oracle { s with workflow_status := .processing }
          ⟨some f, none, false, none⟩ :=
    runApp_same_name client oracle _ f none false none (by simpa using hname)
  refine ⟨h1, ?_, ?_, ?_⟩
  · rw [h3, h2]
  · rw [h3, h2]
  · intro key msg hkey hexn
    rw [h3, h2]
    simp [gwText, hkey, hexn]

/-- Witness for C1: with the credential present and an oracle that always
raises, the processing run still ends with the error text stored as content. -/
theorem launch_then_three_calls_then_done_witness :
    (runApp (some "k") exnOracle { idleDemoState with workflow_status := .processing }
        ⟨some demoFile, none, false, none⟩).1.concept_map = some ("Error: " ++ "boom") :=
  (launch_then_three_calls_then_done (some "k") exnOracle idleDemoState demoPart demoFile
      rfl rfl rfl).2.2.2 "k" "boom" rfl rfl

/-- C9: a `processing` run stores exactly the three gateway results in order:
the concept map is the first call's text, the flashcards CSV the second's, and
the quiz history is the single assistant turn holding the third's. -/
theorem processing_stores_exact_results
    (client : Option String) (oracle : Oracle) (s : SessionState)
    (part : Part) (f : FileUpload) (failure : Option String) (b : Bool)
    (ci : Option String)
    (hproc : s.workflow_status = .processing)
    (href : s.uploaded_file_ref = some part)
    (hname : s.current_file_name = some f.name) :
    (runApp client oracle s ⟨some f, failure, b, ci⟩).1.workflow_status = .done ∧
    (runApp client oracle s ⟨some f, failure, b, ci⟩).1.concept_map
      = some (gwText client oracle summary_prompt (some part) default_model) ∧
    (runApp client oracle s ⟨some f, failure, b, ci⟩).1.flashcards_csv
      = some (gwText client oracle flashcard_prompt (some part) default_model) ∧
    (runApp client oracle s ⟨some f, failure, b, ci⟩).1.quiz_history
      = [("assistant", gwText client oracle q1_prompt (some part) default_model)] := by
  rw [runApp_same_name client oracle s f failure b ci hname,
    mainBranch_processing client oracle s _ part href hproc]
  exact ⟨rfl, rfl, rfl, rfl⟩

/-- Witness for C9 on a concrete processing session. -/
theorem processing_stores_exact_results_witness :
    (runApp (some "k") okOracle { idleDemoState with workflow_status := .processing }
        ⟨some demoFile, none, false, none⟩).1.quiz_history
      = [("assistant", gwText (some "k") okOracle q1_prompt (some demoPart) default_model)] :=
  (processing_stores_exact_results (some "k") okOracle
      { idleDemoState with workflow_status := .processing } demoPart demoFile none false none
      rfl rfl rfl).2.2.2

/-- C2 counterexample: uploading a different artifact (different bytes and MIME
type) that happens to carry the same filename does not reset the derived
fields — replacement is detected by filename only, so the stale concept map,
flashcards and quiz history all survive. -/
theorem same_name_replacement_keeps_stale_data :
    sameNameFile.bytes ≠ demoPart.data ∧
    runApp none okOracle staleDemoState ⟨some sameNameFile, none, false, none⟩
      = (staleDemoState, []) ∧
    staleDemoState.quiz_history = [("assistant", "old question")] := by
  refine ⟨by decide, ?_, rfl⟩
  rfl

/-- C2 (amended): replacing the uploaded artifact with one of a *different
filename*, or removing it, resets `concept_map`, `flashcards_csv` and
`quiz_history` together to their initial empty state; replacement detection is
by filename only, so a different artifact with an unchanged name triggers no
reset. -/
theorem upload_change_resets_derived
    (client : Option String) (oracle : Oracle) (s : SessionState) (e : Event)
    (h : (∃ f, e.uploaded_file = some f ∧ s.current_file_name ≠ some f.name) ∨
         (e.uploaded_file = none ∧ s.uploaded_file_ref.isSome = true)) :
    (runApp client oracle s e).1.concept_map = none ∧
    (runApp client oracle s e).1.flashcards_csv = none ∧
    (runApp client oracle s e).1.quiz_history = [] := by
  rcases h with ⟨f, hf, hname⟩ | ⟨hf, href⟩
  · obtain ⟨uf, failure, b, ci⟩ := e
    cases hf
    cases hfail : failure with
    | none => simp [runApp, hname, part_from_bytes, hfail]
    | some err => simp [runApp, hname, part_from_bytes, hfail, mainBranch]
  · obtain ⟨uf, failure, b, ci⟩ := e
    cases hf
    cases hr : s.uploaded_file_ref with
    | none => simp [hr] at href
    | some part => simp [runApp, hr]

/-- Witness for C2 (amended): removing the uploaded artifact clears the stale
derived data of `staleDemoState`. -/
theorem upload_change_resets_derived_witness :
    (runApp none okOracle staleDemoState ⟨none, none, false, none⟩).1.concept_map = none ∧
    (runApp none okOracle staleDemoState ⟨none, none, false, none⟩).1.flashcards_csv = none ∧
    (runApp none okOracle staleDemoState ⟨none, none, false, none⟩).1.quiz_history = [] :=
  upload_change_resets_derived none okOracle staleDemoState ⟨none, none, false, none⟩
    (Or.inr ⟨rfl, rfl⟩)

/-- C6: on a new chat message in the `done` state, the run appends the user
turn, issues exactly one gateway call whose prompt embeds the transcript
reconstructed from the history including that user turn and whose attachment is
the original uploaded artifact, then appends the assistant turn carrying the
response; no other session field changes. -/
theorem chat_appends_and_calls_once
    (client : Option String) (oracle : Oracle) (s : SessionState)
    (part : Part) (f : FileUpload) (failure : Option String) (b : Bool) (msg : String)
    (hdone : s.workflow_status = .done)
    (href : s.uploaded_file_ref = some part)
    (hname : s.current_file_name = some f.name) :
    runApp client oracle s ⟨some f, failure, b, some msg⟩
      = ({ s with quiz_history :=
              (s.quiz_history ++ [("user", msg)])
                ++ [("assistant",
                     gwText client oracle
                       (grading_prompt (history_text (s.quiz_history ++ [("user", msg)])))
                       (some part) default_model)] },
         [gwRecord client
            (grading_prompt (history_text (s.quiz_history ++ [("user", msg)])))
            (some part) default_model]) ∧
    (∃ context task,
      grading_prompt (history_text (s.quiz_history ++ [("user", msg)]))
        = context ++ history_text (s.quiz_history ++ [("user", msg)]) ++ task) := by
  refine ⟨?_, ⟨_, _, rfl⟩⟩
  rw [runApp_same_name client oracle s f failure b (some msg) hname]
  simp [mainBranch, href, hdone, generate]

/-- Witness for C6 on a concrete `done` session and message. -/
theorem chat_appends_and_calls_once_witness :
    runApp (some "k") okOracle staleDemoState ⟨some demoFile, none, false, some "my answer"⟩
      = ({ staleDemoState with quiz_history :=
              (staleDemoState.quiz_history ++ [("user", "my answer")])
                ++ [("assistant",
                     gwText (some "k") okOracle
                       (grading_prompt (history_text
                         (staleDemoState.quiz_history ++ [("user", "my answer")])))
                       (some demoPart) default_model)] },
         [gwRecord (some "k")
            (grading_prompt (history_text
              (staleDemoState.quiz_history ++ [("user", "my answer")])))
            (some demoPart) default_model]) :=
  (chat_appends_and_calls_once (some "k") okOracle staleDemoState demoPart demoFile
      none false "my answer" rfl rfl rfl).1

/-- Helper: the characters of a `strJoin` are the `List.intercalate` of the
characters of the pieces. -/
theorem strJoin_data (sep : String) : ∀ l : List String,
    (strJoin sep l).data = List.intercalate sep.data (l.map String.data)
  | [] => by simp [strJoin, List.intercalate]
  | [x] => by simp [strJoin, List.intercalate]
  | x :: y :: rest => by
    have ih := strJoin_data sep (y :: rest)
    simp only [strJoin, List.map_cons, String.data_append, ih]
    simp [List.intercalate]

/-- C5: splitting the reconstructed transcript on the newline character yields
exactly the `"role: text"` lines of the history, one per turn, in chronological
order — every prior turn is present, ordered, with its role label. (Stated for
newline-free turns, where "lines" is meaningful.) -/
theorem transcript_lines
    (h : List ChatTurn) (hne : h ≠ [])
    (hnl : ∀ p ∈ h, '\n' ∉ (turnLine p).data) :
    (history_text h).data.splitOn '\n' = h.map (fun p => (turnLine p).data) := by
  have hdata : (history_text h).data
      = List.intercalate ['\n'] ((h.map turnLine).map String.data) := by
    simpa using strJoin_data "\n" (h.map turnLine)
  rw [hdata]
  rw [show ((h.map turnLine).map String.data) = h.map (fun p => (turnLine p).data) by
    rw [List.map_map]; rfl]
  apply List.splitOn_intercalate
  · intro l hl
    rcases List.mem_map.mp hl with ⟨p, hp, rfl⟩
    exact hnl p hp
  · simpa using hne

/-- Witness for C5 on a concrete two-turn history. -/
theorem transcript_lines_witness :
    (history_text [("assistant", "q"), ("user", "a")]).data.splitOn '\n'
      = [("assistant", "q"), ("user", "a")].map (fun p => (turnLine p).data) :=
  transcript_lines [("assistant", "q"), ("user", "a")] (by decide) (by decide)

/-- Roles strictly alternate from position `n` on, with even positions
expected to be `"assistant"` and odd positions `"user"`. -/
def altRoles : Nat → List ChatTurn → Bool
  | _, [] => true
  | n, (role, _) :: rest =>
    (role == (if n % 2 == 0 then "assistant" else "user")) && altRoles (n + 1) rest

/-- Helper: `altRoles` splits over an append. -/
theorem altRoles_append (t : List ChatTurn) : ∀ (n : Nat) (h : List ChatTurn),
    altRoles n (h ++ t) = (altRoles n h && altRoles (n + h.length) t)
  | n, [] => by simp [altRoles]
  | n, (role, txt) :: rest => by
    have ih := altRoles_append t (n + 1) rest
    simp [altRoles, ih, Bool.and_assoc, Nat.add_assoc, Nat.add_comm 1 rest.length]

/-- The inductive invariant behind C10: away from `done` the quiz history is
empty; at `done` it alternates starting with an assistant turn and has odd
length. -/
def HistInv (s : SessionState) : Prop :=
  (s.workflow_status = .done →
    altRoles 0 s.quiz_history = true ∧ s.quiz_history.length % 2 = 1) ∧
  (s.workflow_status ≠ .done → s.quiz_history = [])

/-- Helper: the initial state satisfies the invariant. -/
theorem histInv_initial : HistInv initialState := by
  constructor
  · intro hd
    simp [initialState] at hd
  · intro _
    rfl

/-- Helper: every interaction preserves the invariant. -/
theorem histInv_step (client : Option String) (oracle : Oracle)
    (s : SessionState) (e : Event) (hs : HistInv s) :
    HistInv (runApp client oracle s e).1 := by
  obtain ⟨uf, failure, b, ci⟩ := e
  obtain ⟨hdone, hother⟩ := hs
  cases uf with
  | some f =>
    by_cases hname : s.current_file_name ≠ some f.name
    · cases hfail : failure with
      | none =>
        simp only [runApp, if_pos hname, part_from_bytes]
        exact ⟨by intro hd; simp at hd, fun _ => rfl⟩
      | some err =>
        simp only [runApp, if_pos hname, part_from_bytes, mainBranch]
        exact ⟨by intro hd; simp at hd, fun _ => rfl⟩
    · simp only [runApp, if_neg hname]
      cases hr : s.uploaded_file_ref with
      | none =>
        simp only [mainBranch, hr]
        exact ⟨hdone, hother⟩
      | some part =>
        cases hst : s.workflow_status with
        | idle =>
          have hemp : s.quiz_history = [] := hother (by simp [hst])
          simp only [mainBranch, hr, hst]
          cases b with
          | false => exact ⟨by intro hd; simp [hst] at hd, fun _ => hemp⟩
          | true =>
            simp only [if_pos]
            exact ⟨by intro hd; simp at hd, fun _ => hemp⟩
        | processing =>
          simp only [mainBranch, hr, hst]
          refine ⟨fun _ => ⟨?_, rfl⟩, by intro hd; simp at hd⟩
          simp [altRoles]
        | done =>
          obtain ⟨halt, hodd⟩ := hdone hst
          cases ci with
          | none =>
            simp only [mainBranch, hr, hst]
            exact ⟨fun _ => ⟨halt, hodd⟩, by intro hd; simp [hst] at hd⟩
          | some msg =>
            simp only [mainBranch, hr, hst]
            refine ⟨fun _ => ⟨?_, ?_⟩, by intro hd; simp at hd⟩
            · rw [List.append_assoc, altRoles_append]
              rw [halt]
              simp only [Bool.true_and]
              simp [altRoles, hodd, Nat.add_mod]
            · simp [Nat.add_mod, hodd]
  | none =>
    cases hr : s.uploaded_file_ref with
    | none =>
      simp only [runApp, hr, mainBranch]
      exact ⟨hdone, hother⟩
    | some part =>
      simp only [runApp, hr]
      exact ⟨by intro hd; simp at hd, fun _ => rfl⟩

/-- C10: in every reachable session state the quiz history is either empty or
strictly alternates roles beginning with an assistant turn — it never holds two
consecutive turns of the same role and never starts with a user turn. -/
theorem quiz_history_alternates (s : SessionState) (hs : Reachable s) :
    s.quiz_history = [] ∨ altRoles 0 s.quiz_history = true := by
  have hinv : HistInv s := by
    induction hs with
    | init => exact histInv_initial
    | step client oracle e _ ih => exact histInv_step client oracle _ e ih
  by_cases hd : s.workflow_status = .done
  · exact Or.inr (hinv.1 hd).1
  · exact Or.inl (hinv.2 hd)

/-- Witness for C10 at the initial state. -/
theorem quiz_history_alternates_witness :
    initialState.quiz_history = [] ∨ altRoles 0 initialState.quiz_history = true :=
  quiz_history_alternates initialState Reachable.init

end StudentAssistant
